import Mathlib

/-!
Verification of the Spotify library grabber's core pipeline, shallowly
embedded from the JavaScript source (`index.js` and the folder-structure
variant documented in the repository's markdown).

Conventions of the embedding:
* JS strings are Lean `String`s; character-wise operations work on `String.data`.
* JS objects written to disk are modelled by the inductive `Json` type, so that
  field presence/absence (e.g. the Liked Songs record having no `id`/`uri`
  keys) is faithfully representable.
* `async` loops (`do … while`) are modelled with an explicit fuel parameter;
  running out of fuel returns `none`, modelling non-termination.
* A JS `Map` is modelled as an association list where `set` prepends, so that
  `get` (first match) sees the most recent write, matching overwrite semantics.
* `process.exit(1)` and exceptions are modelled by explicit result
  constructors (`ResolverOutcome.exit`, `Option.none`).
-/

/-- The reserved character class of `sanitizeFilename`'s regex
`/[\\/:*?"<>|]/g` in `index.js` lines 35-37. -/
def reservedChars : List Char := ['\\', '/', ':', '*', '?', '"', '<', '>', '|']

/-- Character-wise action of the regex replace: a reserved character becomes
a single underscore, anything else is untouched. -/
def sanitizeChar (c : Char) : Char :=
  if c ∈ reservedChars then '_' else c

/-- Source `index.js` lines 35-37: `filename.replace(/[\\/:*?"<>|]/g, '_')`.
The g-flagged single-character class replaces each occurrence independently,
i.e. it is a character-wise map over the string. -/
def sanitizeFilename (s : String) : String :=
  ⟨s.data.map sanitizeChar⟩

/-- Node path.join restricted to the separator-free segments this program
joins: empty segments are dropped, joining two empty segments yields `"."`,
otherwise segments are glued with `/`. -/
def pathJoin (a b : String) : String :=
  if a = "" then (if b = "" then "." else b)
  else if b = "" then a
  else a ++ "/" ++ b

/-- A JSON value, used to model the JS object literals the program serialises. -/
inductive Json where
  | str (s : String)
  | num (n : Int)
  | null
  | arr (xs : List Json)
  | obj (fields : List (String × Json))

/-- Keys of a JSON object (empty for non-objects). -/
def Json.keys : Json → List String
  | .obj fs => fs.map (·.1)
  | _ => []

/-- Field lookup in a JSON object. -/
def Json.getField : Json → String → Option Json
  | .obj fs, k => (fs.find? (·.1 == k)).map (·.2)
  | _, _ => none

section Pagination

variable {α : Type}

/-- The page shape consumed by `fetchAllItems`: `response.body.items` and the
truthiness of `response.body.next`. -/
structure Page (α : Type) where
  items : List α
  next : Bool
  deriving Repr, DecidableEq

/-- Loop body of `fetchAllItems` (`index.js` lines 44-57): fetch at the current
offset, append `response.body.items`, advance the offset by the fixed
`limit = 50`, repeat while `response.body.next` is truthy.  `fuel` bounds the
number of iterations; exhausting it returns `none` (the JS loop would spin). -/
def fetchAllItemsGo (apiCall : Nat → Nat → Page α) : Nat → Nat → List α → Option (List α)
  | 0, _, _ => none
  | fuel + 1, offset, acc =>
      let response := apiCall 50 offset
      let acc2 := acc ++ response.items
      if response.next then fetchAllItemsGo apiCall fuel (offset + 50) acc2
      else some acc2

/-- Source `index.js` lines 44-57: drain an offset-paginated endpoint starting
from offset 0 with an empty accumulator. -/
def fetchAllItems (apiCall : Nat → Nat → Page α) (fuel : Nat) : Option (List α) :=
  fetchAllItemsGo apiCall fuel 0 []

end Pagination

section Cursor

variable {α : Type}

/-- The response shape consumed by the followed-artists loop:
`response.body.artists.items` and `response.body.artists.cursors.after`
(`none` models a null/absent cursor). -/
structure CursorPage (α : Type) where
  items : List α
  after : Option String

/-- JS truthiness of the string-or-null cursor in `while (after)`:
null/undefined and the empty string are falsy, any other string is truthy. -/
def cursorTruthy : Option String → Bool
  | none => false
  | some s => !(s == "")

/-- Loop of `saveFollowedArtists` (`index.js` lines 225-230): fetch with the
current cursor, append `response.body.artists.items`, thread the returned
`cursors.after`, repeat while the cursor is truthy.  The second component of
the result counts the total number of fetches performed. -/
def saveFollowedArtistsGo (api : Option String → CursorPage α) :
    Nat → Option String → List α → Nat → Option (List α × Nat)
  | 0, _, _, _ => none
  | fuel + 1, after, acc, fetches =>
      let response := api after
      let acc2 := acc ++ response.items
      let after2 := response.after
      if cursorTruthy after2 then saveFollowedArtistsGo api fuel after2 acc2 (fetches + 1)
      else some (acc2, fetches + 1)

/-- Drain of the cursor endpoint starting from the initial `after = null`. -/
def drainFollowedArtists (api : Option String → CursorPage α) (fuel : Nat) :
    Option (List α × Nat) :=
  saveFollowedArtistsGo api fuel none [] 0

/-- Cursor passed to the i-th fetch of the loop: `null` first, then whatever
the previous response returned as `cursors.after`. -/
def seqAfter (api : Option String → CursorPage α) : Nat → Option String
  | 0 => none
  | i + 1 => (api (seqAfter api i)).after

end Cursor

section FolderTree

/-- JS `Map.prototype.set`, modelled by prepending so that lookup (first
match) sees the most recent write: overwrite semantics for `get`. -/
def mapSet (m : List (String × String)) (k v : String) : List (String × String) :=
  (k, v) :: m

/-- JS `Map.prototype.get` (returns undefined, i.e. `none`, when absent). -/
def mapGet (m : List (String × String)) (k : String) : Option String :=
  (m.find? (·.1 == k)).map (·.2)

/-- A node of the rootlist tree: `item.type === 'playlist'` carries a `uri`;
`item.type === 'folder'` carries a `name` and an optional `items` array
(the source guards recursion with `if (item.items)`). -/
inductive FolderNode where
  | playlist (uri : String)
  | folder (name : String) (children : Option (List FolderNode))

/-- Recursive descent of `parseItems` (markdown part_001 lines 165-177): a
playlist node records `(uri, currentPath)` in the map; a folder node extends
the path with `path.join(currentPath, sanitizeFilename(item.name))` and
recurses into its children when they are present.  The mutated closure map is
threaded explicitly in traversal order. -/
def parseItems : List FolderNode → String → List (String × String) → List (String × String)
  | [], _, m => m
  | FolderNode.playlist uri :: rest, currentPath, m =>
      parseItems rest currentPath (mapSet m uri currentPath)
  | FolderNode.folder name children :: rest, currentPath, m =>
      let newPath := pathJoin currentPath (sanitizeFilename name)
      let m2 := match children with
        | some items => parseItems items newPath m
        | none => m
      parseItems rest currentPath m2

/-- Observable result of `getPlaylistFolderMap`: either a folder map, or
termination of the whole process via `process.exit(code)`. -/
inductive ResolverOutcome where
  | ok (map : List (String × String))
  | exit (code : Nat)

/-- Markdown part_001 lines 160-197.  The input models the outcome of the
axios rootlist fetch: `Except.error` is a thrown request error (caught by the
catch block, which logs and calls `process.exit(1)`); `Except.ok (some items)`
is a response passing the `response.data && response.data.items` guard, which
is parsed from the empty base path; `Except.ok none` is a successful response
lacking `items`, which falls through to `return map` with the map still
empty. -/
def getPlaylistFolderMap (fetchRootlist : Except String (Option (List FolderNode))) :
    ResolverOutcome :=
  match fetchRootlist with
  | Except.error _ => ResolverOutcome.exit 1
  | Except.ok (some items) => ResolverOutcome.ok (parseItems items "" [])
  | Except.ok none => ResolverOutcome.ok []

/-- Markdown part_001 line 220: `folderMap.get(playlist.uri) || ''` — an
absent entry (and, by JS truthiness, an empty stored path) falls back to the
empty path. -/
def lookupFolderPath (folderMap : List (String × String)) (uri : String) : String :=
  match mapGet folderMap uri with
  | none => ""
  | some p => p

/-- Markdown part_001 line 221: the directory a playlist file is written to,
relative to the output root. -/
def playlistTargetDir (folderMap : List (String × String)) (uri : String) : String :=
  pathJoin "Playlists" (lookupFolderPath folderMap uri)

end FolderTree

section Projector

/-- The nested track object of a playlist track item; `album` is the possibly
absent nested album object (only its `name` is read), matching the
`item.track && item.track.album` guard. -/
structure TrackObj where
  name : String
  artists : List String
  album : Option String
  uri : String

/-- A playlist track item as returned by the playlist-tracks endpoint:
`track` may be null (removed/unavailable track). -/
structure PlaylistTrackItem where
  track : Option TrackObj
  added_at : String

/-- Null-guarded playlist track projection, markdown part_001 lines 237-243:
each field of the record falls back to a sentinel when `item.track` (or
`item.track.album`) is absent. -/
def projectPlaylistTrack (item : PlaylistTrackItem) : Json :=
  Json.obj [
    ("name", Json.str (match item.track with
      | some t => t.name
      | none => "Unknown Track")),
    ("artist", Json.str (match item.track with
      | some t => String.intercalate ", " t.artists
      | none => "Unknown Artist")),
    ("album", Json.str (match item.track with
      | some t =>
        match t.album with
        | some a => a
        | none => "Unknown Album"
      | none => "Unknown Album")),
    ("added_at", Json.str item.added_at),
    ("uri", match item.track with
      | some t => Json.str t.uri
      | none => Json.null)]

/-- Unguarded playlist track projection, `index.js` lines 127-133: it
dereferences `item.track.name`, `item.track.artists`, `item.track.album.name`
and `item.track.uri` directly, so a null `track` (or a missing nested `album`)
raises a TypeError, modelled by `none`. -/
def projectPlaylistTrackUnguarded (item : PlaylistTrackItem) : Option Json :=
  match item.track with
  | none => none
  | some t =>
    match t.album with
    | none => none
    | some albumName =>
        some (Json.obj [
          ("name", Json.str t.name),
          ("artist", Json.str (String.intercalate ", " t.artists)),
          ("album", Json.str albumName),
          ("added_at", Json.str item.added_at),
          ("uri", Json.str t.uri)])

/-- The nested track object of a saved-track item as read (unguarded) by
`saveLikedSongs`. -/
structure SavedTrack where
  name : String
  artists : List String
  album : String
  uri : String

/-- An item of the saved-tracks (Liked Songs) endpoint. -/
structure SavedTrackItem where
  added_at : String
  track : SavedTrack

/-- Track record built by `saveLikedSongs` (`index.js` lines 161-167). -/
def projectSavedTrack (item : SavedTrackItem) : Json :=
  Json.obj [
    ("name", Json.str item.track.name),
    ("artist", Json.str (String.intercalate ", " item.track.artists)),
    ("album", Json.str item.track.album),
    ("added_at", Json.str item.added_at),
    ("uri", Json.str item.track.uri)]

/-- The synthesized Liked Songs record (`index.js` lines 157-168): fixed
`name`, `description` and `owner`, a `tracks` array, and no other keys. -/
def likedSongsJson (savedTracksData : List SavedTrackItem) : Json :=
  Json.obj [
    ("name", Json.str "Liked Songs"),
    ("description", Json.str "Your collection of liked songs from Spotify."),
    ("owner", Json.str "You"),
    ("tracks", Json.arr (savedTracksData.map projectSavedTrack))]

/-- Source `index.js` lines 147-175: `saveLikedSongs` writes the synthesized
record to `path.join(playlistsDir, 'Liked Songs.json')`.  Paths are relative
to the output root; the function receives no folder map at all, so its output
cannot depend on one. -/
def saveLikedSongs (savedTracksData : List SavedTrackItem) : String × Json :=
  (pathJoin "Playlists" "Liked Songs.json", likedSongsJson savedTracksData)

/-- Album folder name, `index.js` lines 74-76:
`sanitizeFilename(artistName + ' - ' + albumTitle)` with
`artistName = album.artists.map(a => a.name).join(', ')`. -/
def albumFolderName (artistNames : List String) (albumTitle : String) : String :=
  sanitizeFilename (String.intercalate ", " artistNames ++ " - " ++ albumTitle)

/-- Playlist file name, markdown part_001 line 222:
`sanitizeFilename(playlist.name) + '.json'`. -/
def playlistFileName (playlistName : String) : String :=
  sanitizeFilename playlistName ++ ".json"

/-- Show folder name, `index.js` line 190: `sanitizeFilename(show.name)`. -/
def showFolderName (showName : String) : String :=
  sanitizeFilename showName

/-- Artist file name, `index.js` lines 235-244:
`sanitizeFilename(artist.name) + '.json'`. -/
def artistFileName (artistName : String) : String :=
  sanitizeFilename artistName ++ ".json"

/-- Folder path segment contributed by one folder node, markdown part_001
line 171: `sanitizeFilename(item.name)`. -/
def folderSegmentName (folderName : String) : String :=
  sanitizeFilename folderName

end Projector

section TestFixtures

/-- A string is filesystem-clean when it contains no reserved character (the
reserved set includes both path separators `/` and `\`). -/
def noReserved (s : String) : Prop := ∀ c ∈ reservedChars, c ∉ s.data

/-- Stub offset endpoint returning pages of sizes 50, 50, 23 with next
signals true, true, false — the pagination fixture of the spec. -/
def stubPages : Nat → Nat → Page Nat :=
  fun _ offset =>
    if offset = 0 then ⟨List.range 50, true⟩
    else if offset = 50 then ⟨(List.range 50).map (fun n => n + 50), true⟩
    else if offset = 100 then ⟨(List.range 23).map (fun n => n + 100), false⟩
    else ⟨[], false⟩

/-- Expected drain of `stubPages`: the three pages in fetch order. -/
def stubDrained : List Nat :=
  (List.range 3).flatMap fun i => (stubPages 50 (50 * i)).items

/-- Stub cursor endpoint whose responses carry the `after` chain
c1, c2, null — the cursor fixture of the spec. -/
def cursorStub : Option String → CursorPage Nat
  | none => ⟨List.range 50, some "c1"⟩
  | some s =>
      if s = "c1" then ⟨(List.range 50).map (fun n => n + 50), some "c2"⟩
      else if s = "c2" then ⟨[100], none⟩
      else ⟨[], none⟩

/-- Expected drain of `cursorStub`: the three pages in fetch order. -/
def cursorDrained : List Nat :=
  (List.range 3).flatMap fun i => (cursorStub (seqAfter cursorStub i)).items

/-- Stub cursor endpoint whose first response carries a present but empty
cursor string. -/
def emptyCursorStub : Option String → CursorPage Nat
  | none => ⟨[1, 2], some ""⟩
  | some _ => ⟨[3], none⟩

/-- The folder tree `Folder("Rock", [PlaylistRef(uriA),
Folder("Classic", [PlaylistRef(uriB)])])` of the spec. -/
def exampleTree : List FolderNode :=
  [FolderNode.folder "Rock" (some
    [FolderNode.playlist "uriA",
     FolderNode.folder "Classic" (some [FolderNode.playlist "uriB"])])]

end TestFixtures

/-! ### Helper lemmas -/

theorem sanitizeFilename_data (s : String) :
    (sanitizeFilename s).data = s.data.map sanitizeChar := rfl

theorem sanitizeFilename_noReserved (s : String) : noReserved (sanitizeFilename s) := by
  intro c hc hmem
  rw [sanitizeFilename_data, List.mem_map] at hmem
  rcases hmem with ⟨a, _, ha⟩
  by_cases h : a ∈ reservedChars
  · rw [sanitizeChar, if_pos h] at ha
    subst ha
    exact absurd hc (by decide)
  · rw [sanitizeChar, if_neg h] at ha
    subst ha
    exact h hc

theorem sanitizeChar_idem (c : Char) : sanitizeChar (sanitizeChar c) = sanitizeChar c := by
  unfold sanitizeChar
  by_cases h : c ∈ reservedChars
  · rw [if_pos h, if_neg (by decide : ¬ ('_' ∈ reservedChars))]
  · rw [if_neg h, if_neg h]

theorem noReserved_append {s t : String} (hs : noReserved s) (ht : noReserved t) :
    noReserved (s ++ t) := by
  intro c hc hmem
  rw [String.data_append, List.mem_append] at hmem
  rcases hmem with h | h
  · exact hs c hc h
  · exact ht c hc h

theorem string_ne_empty_of_data_length {s : String} (h : 0 < s.data.length) : s ≠ "" := by
  intro he
  subst he
  simp at h

theorem sanitizeFilename_ne_empty {s : String} (h : s ≠ "") : sanitizeFilename s ≠ "" := by
  apply string_ne_empty_of_data_length
  rw [sanitizeFilename_data, List.length_map]
  rcases Nat.eq_zero_or_pos s.data.length with h0 | h0
  · exact absurd (String.ext (List.length_eq_zero.mp h0)) h
  · exact h0

theorem append_json_ne_empty (s : String) : s ++ ".json" ≠ "" := by
  apply string_ne_empty_of_data_length
  rw [String.data_append, List.length_append]
  have h5 : (".json" : String).data.length = 5 := rfl
  omega

theorem fetchAllItemsGo_spec {α : Type} (apiCall : Nat → Nat → Page α) (k : Nat)
    (hk : (apiCall 50 (50 * k)).next = false)
    (h1 : ∀ i, i < k → (apiCall 50 (50 * i)).next = true) :
    ∀ fuel j acc, j ≤ k → k - j < fuel →
      fetchAllItemsGo apiCall fuel (50 * j) acc =
        some (acc ++ (List.range' j (k + 1 - j)).flatMap fun i => (apiCall 50 (50 * i)).items) := by
  intro fuel
  induction fuel with
  | zero => intro j acc hj hf; omega
  | succ f ih =>
    intro j acc hj hf
    simp only [fetchAllItemsGo]
    by_cases hjk : j < k
    · rw [h1 j hjk, if_pos rfl]
      have h50 : 50 * j + 50 = 50 * (j + 1) := by ring
      rw [h50, ih (j + 1) (acc ++ (apiCall 50 (50 * j)).items) (by omega) (by omega)]
      have hn : k + 1 - j = (k - j) + 1 := by omega
      rw [hn, List.range'_succ, List.flatMap_cons, List.append_assoc]
      have hn2 : k - j = k + 1 - (j + 1) := by omega
      rw [hn2]
    · have hj2 : j = k := by omega
      subst hj2
      rw [hk]
      simp only [Bool.false_eq_true, if_false]
      have hn : j + 1 - j = 1 := by omega
      rw [hn, List.range'_one]
      simp

theorem saveFollowedArtistsGo_spec {α : Type} (api : Option String → CursorPage α) (k : Nat)
    (hk : cursorTruthy (seqAfter api (k + 1)) = false)
    (h1 : ∀ i, i < k → cursorTruthy (seqAfter api (i + 1)) = true) :
    ∀ fuel j acc fetches, j ≤ k → k - j < fuel →
      saveFollowedArtistsGo api fuel (seqAfter api j) acc fetches =
        some (acc ++ (List.range' j (k + 1 - j)).flatMap (fun i => (api (seqAfter api i)).items),
              fetches + (k + 1 - j)) := by
  intro fuel
  induction fuel with
  | zero => intro j acc fetches hj hf; omega
  | succ f ih =>
    intro j acc fetches hj hf
    simp only [saveFollowedArtistsGo]
    have hstep : (api (seqAfter api j)).after = seqAfter api (j + 1) := rfl
    rw [hstep]
    by_cases hjk : j < k
    · rw [h1 j hjk, if_pos rfl]
      rw [ih (j + 1) (acc ++ (api (seqAfter api j)).items) (fetches + 1) (by omega) (by omega)]
      have hn : k + 1 - j = (k - j) + 1 := by omega
      rw [hn, List.range'_succ, List.flatMap_cons, List.append_assoc]
      have hn2 : k - j = k + 1 - (j + 1) := by omega
      rw [hn2]
      have hn3 : fetches + 1 + (k + 1 - (j + 1)) = fetches + (k + 1 - (j + 1) + 1) := by omega
      rw [hn3]
    · have hj2 : j = k := by omega
      subst hj2
      rw [hk]
      simp only [Bool.false_eq_true, if_false]
      have hn : j + 1 - j = 1 := by omega
      rw [hn, List.range'_one]
      simp

/-! ### Claim theorems -/

/-- Claim C1: the offset drainer `fetchAllItems` returns the concatenation of
the items arrays of the successive pages in fetch order, fetching at offsets
0, 50, 100, … with the page size fixed at 50, and stops after the first page
whose next signal is false. -/
theorem fetchAllItems_drains_pages {α : Type} (apiCall : Nat → Nat → Page α) (k fuel : Nat)
    (h1 : ∀ i, i < k → (apiCall 50 (50 * i)).next = true)
    (hk : (apiCall 50 (50 * k)).next = false)
    (hfuel : k < fuel) :
    fetchAllItems apiCall fuel =
      some ((List.range (k + 1)).flatMap fun i => (apiCall 50 (50 * i)).items) := by
  have h := fetchAllItemsGo_spec apiCall k hk h1 fuel 0 [] (Nat.zero_le k) (by omega)
  rw [Nat.mul_zero] at h
  rw [fetchAllItems, h]
  simp [List.range_eq_range']

/-- Witness for C1: on the stub endpoint with page sizes 50, 50, 23 and next
signals true, true, false, the drain returns all 123 items, in page order,
preserving page-internal order. -/
theorem fetchAllItems_drains_pages_witness :
    fetchAllItems stubPages 5 = some stubDrained ∧
    stubDrained.length = 123 ∧ stubDrained = List.range 123 :=
  ⟨fetchAllItems_drains_pages stubPages 2 5 (by decide) (by decide) (by decide),
   by decide, by decide⟩

/-- Claim C2: `parseItems` is a pre-order traversal — at a folder node it
extends the accumulated path with the sanitized folder name and recurses into
the children, at a playlist node it records the uri with the current path and
does not recurse; on the tree Folder("Rock", [PlaylistRef(uriA),
Folder("Classic", [PlaylistRef(uriB)])]) the resulting map sends uriA to the
path Rock and uriB to the path Rock/Classic. -/
theorem parseItems_preorder_example :
    (∀ uri rest currentPath m,
       parseItems (FolderNode.playlist uri :: rest) currentPath m =
         parseItems rest currentPath (mapSet m uri currentPath)) ∧
    (∀ name children rest currentPath m,
       parseItems (FolderNode.folder name (some children) :: rest) currentPath m =
         parseItems rest currentPath
           (parseItems children (pathJoin currentPath (sanitizeFilename name)) m)) ∧
    mapGet (parseItems exampleTree "" []) "uriA" = some "Rock" ∧
    mapGet (parseItems exampleTree "" []) "uriB" =
      some (String.intercalate "/" ["Rock", "Classic"]) := by
  refine ⟨fun uri rest p m => by rw [parseItems],
          fun name children rest p m => by rw [parseItems], ?_, ?_⟩
  · simp only [exampleTree, parseItems]
    decide
  · simp only [exampleTree, parseItems]
    decide

/-- Counterexample to claim C3: a failed rootlist fetch does not degrade to a
usable (root-path) folder map — the resolver never returns an `ok` map on
fetch failure. -/
theorem resolver_error_no_ok_map :
    ¬ ∃ m, getPlaylistFolderMap (Except.error "expired token") = ResolverOutcome.ok m := by
  rintro ⟨m, h⟩
  simp [getPlaylistFolderMap] at h

/-- Claim C3 as amended: on any failure of the rootlist fetch the resolver
terminates the process with exit code 1 (it aborts the run rather than
degrading); only a successful fetch whose body lacks an items field degrades
to the empty map, i.e. root placement for every playlist. -/
theorem resolver_error_exits_process (e : String) :
    getPlaylistFolderMap (Except.error e) = ResolverOutcome.exit 1 ∧
    getPlaylistFolderMap (Except.ok none) = ResolverOutcome.ok [] :=
  ⟨rfl, rfl⟩

/-- Claim C4: a playlist track item with a null `track` projects, under the
null-guarded variant (markdown part_001), to the sentinel record with name
"Unknown Track", artist "Unknown Artist", album "Unknown Album" and null uri,
without raising; the base `index.js` variant instead dereferences the null
track and raises (modelled by `none`), aborting the export — the code bug the
claim exposes. -/
theorem nullTrack_projection_variants (ts : String) :
    projectPlaylistTrackUnguarded ⟨none, ts⟩ = none ∧
    (projectPlaylistTrack ⟨none, ts⟩).getField "name" = some (Json.str "Unknown Track") ∧
    (projectPlaylistTrack ⟨none, ts⟩).getField "artist" = some (Json.str "Unknown Artist") ∧
    (projectPlaylistTrack ⟨none, ts⟩).getField "album" = some (Json.str "Unknown Album") ∧
    (projectPlaylistTrack ⟨none, ts⟩).getField "added_at" = some (Json.str ts) ∧
    (projectPlaylistTrack ⟨none, ts⟩).getField "uri" = some Json.null :=
  ⟨rfl, rfl, rfl, rfl, rfl, rfl⟩

/-- Claim C5: `sanitizeFilename` removes every occurrence of every reserved
character, preserves length, maps each reserved character of the input to a
single underscore at its position, and leaves every other character unchanged
at its position. -/
theorem sanitizeFilename_reserved_replaced (s : String) (i : Nat) (c : Char)
    (h : s.data[i]? = some c) :
    (∀ r ∈ reservedChars, r ∉ (sanitizeFilename s).data) ∧
    (sanitizeFilename s).data.length = s.data.length ∧
    (c ∈ reservedChars → (sanitizeFilename s).data[i]? = some '_') ∧
    (c ∉ reservedChars → (sanitizeFilename s).data[i]? = some c) := by
  refine ⟨sanitizeFilename_noReserved s, by simp [sanitizeFilename_data], ?_, ?_⟩
  · intro hc
    rw [sanitizeFilename_data, List.getElem?_map, h]
    simp [sanitizeChar, hc]
  · intro hc
    rw [sanitizeFilename_data, List.getElem?_map, h]
    simp [sanitizeChar, hc]

/-- Witness for C5, at the string "a:b" and position 1 (the reserved ':'). -/
theorem sanitizeFilename_reserved_replaced_witness :
    (∀ r ∈ reservedChars, r ∉ (sanitizeFilename "a:b").data) ∧
    (sanitizeFilename "a:b").data.length = ("a:b" : String).data.length ∧
    (':' ∈ reservedChars → (sanitizeFilename "a:b").data[1]? = some '_') ∧
    (':' ∉ reservedChars → (sanitizeFilename "a:b").data[1]? = some ':') :=
  sanitizeFilename_reserved_replaced "a:b" 1 ':' (by decide)

/-- Claim C6: `sanitizeFilename` is idempotent. -/
theorem sanitizeFilename_idempotent (s : String) :
    sanitizeFilename (sanitizeFilename s) = sanitizeFilename s := by
  show String.mk ((s.data.map sanitizeChar).map sanitizeChar) = String.mk (s.data.map sanitizeChar)
  rw [List.map_map]
  exact congrArg String.mk (List.map_congr_left fun a _ => sanitizeChar_idem a)

/-- Claim C7: for every run input, the Liked Songs export is written to the
fixed path Playlists/Liked Songs.json (the function receives no folder map,
so no folder-map contents can affect it), and the synthesized record has
exactly the keys name, description, owner, tracks — owner is the fixed
sentinel "You" and there is no id or uri key. -/
theorem likedSongs_fixed_path_and_shape (d : List SavedTrackItem) :
    (saveLikedSongs d).1 = "Playlists/Liked Songs.json" ∧
    (saveLikedSongs d).2.keys = ["name", "description", "owner", "tracks"] ∧
    (saveLikedSongs d).2.getField "owner" = some (Json.str "You") ∧
    (saveLikedSongs d).2.getField "id" = none ∧
    (saveLikedSongs d).2.getField "uri" = none ∧
    (saveLikedSongs d).2.getField "tracks" = some (Json.arr (d.map projectSavedTrack)) :=
  ⟨rfl, rfl, rfl, rfl, rfl, rfl⟩

/-- Counterexample to claim C8: the loop does not stop exactly when the
cursor is null or absent — on a response whose `after` cursor is present but
equal to the empty string (falsy in JS), the loop stops after a single fetch
even though the cursor is neither null nor absent. -/
theorem cursor_empty_string_stops :
    (emptyCursorStub none).after = some "" ∧
    drainFollowedArtists emptyCursorStub 5 = some ([1, 2], 1) :=
  ⟨rfl, rfl⟩

/-- Claim C8 as amended: the loop threads the `after` cursor returned by each
response and stops exactly when that cursor is falsy in JS — null, absent, or
the empty string; for a stub whose responses carry the non-empty cursors c1,
c2 and then null, exactly two additional fetches occur after the first and
iteration terminates on the null cursor. -/
theorem drainFollowedArtists_stops_on_falsy {α : Type} (api : Option String → CursorPage α)
    (k fuel : Nat)
    (h1 : ∀ i, i < k → cursorTruthy (seqAfter api (i + 1)) = true)
    (hk : cursorTruthy (seqAfter api (k + 1)) = false)
    (hfuel : k < fuel) :
    drainFollowedArtists api fuel =
      some ((List.range (k + 1)).flatMap (fun i => (api (seqAfter api i)).items), k + 1) := by
  have h := saveFollowedArtistsGo_spec api k hk h1 fuel 0 [] 0 (Nat.zero_le k) (by omega)
  rw [drainFollowedArtists]
  have h0 : seqAfter api 0 = none := rfl
  rw [← h0, h]
  simp [List.range_eq_range']

/-- Witness for C8 as amended: on the stub with cursors c1, c2, null the
drain performs exactly 3 fetches (two additional after the first) and
returns the three pages in order. -/
theorem drainFollowedArtists_stops_on_falsy_witness :
    drainFollowedArtists cursorStub 5 = some (cursorDrained, 3) :=
  drainFollowedArtists_stops_on_falsy cursorStub 2 5 (by decide) (by decide) (by decide)

/-- Counterexample to claim C9: when a show's display name is empty, the
sanitized folder name `savePodcasts` uses for it is the empty string, so
directory names are not always non-empty. -/
theorem empty_show_name_empty_folder : showFolderName "" = "" := rfl

/-- Claim C9 as amended: every entity name contains no reserved character
(in particular neither path separator, since `/` and `\` are reserved);
album folder names and playlist/artist file names are always non-empty, while
show folder names and folder-path segments are non-empty whenever the source
display name is non-empty (an empty display name yields an empty segment). -/
theorem entity_names_sanitized (artistNames : List String)
    (albumTitle playlistName showName artistName folderName : String)
    (hshow : showName ≠ "") (hfolder : folderName ≠ "") :
    ('/' ∈ reservedChars ∧ '\\' ∈ reservedChars) ∧
    noReserved (albumFolderName artistNames albumTitle) ∧
    albumFolderName artistNames albumTitle ≠ "" ∧
    noReserved (playlistFileName playlistName) ∧ playlistFileName playlistName ≠ "" ∧
    noReserved (artistFileName artistName) ∧ artistFileName artistName ≠ "" ∧
    noReserved (showFolderName showName) ∧ showFolderName showName ≠ "" ∧
    noReserved (folderSegmentName folderName) ∧ folderSegmentName folderName ≠ "" := by
  have hjson : noReserved ".json" := by
    show ∀ c ∈ reservedChars, c ∉ (".json" : String).data
    decide
  refine ⟨by decide, sanitizeFilename_noReserved _, ?_,
          noReserved_append (sanitizeFilename_noReserved _) hjson, append_json_ne_empty _,
          noReserved_append (sanitizeFilename_noReserved _) hjson, append_json_ne_empty _,
          sanitizeFilename_noReserved _, sanitizeFilename_ne_empty hshow,
          sanitizeFilename_noReserved _, sanitizeFilename_ne_empty hfolder⟩
  apply string_ne_empty_of_data_length
  rw [albumFolderName, sanitizeFilename_data, List.length_map, String.data_append,
      String.data_append, List.length_append, List.length_append]
  have h3 : (" - " : String).data.length = 3 := rfl
  omega

/-- Witness for C9 as amended, at concrete entity names. -/
theorem entity_names_sanitized_witness :
    ('/' ∈ reservedChars ∧ '\\' ∈ reservedChars) ∧
    noReserved (albumFolderName ["A", "B"] "T") ∧
    albumFolderName ["A", "B"] "T" ≠ "" ∧
    noReserved (playlistFileName "P") ∧ playlistFileName "P" ≠ "" ∧
    noReserved (artistFileName "R") ∧ artistFileName "R" ≠ "" ∧
    noReserved (showFolderName "S") ∧ showFolderName "S" ≠ "" ∧
    noReserved (folderSegmentName "F") ∧ folderSegmentName "F" ≠ "" :=
  entity_names_sanitized ["A", "B"] "T" "P" "S" "R" "F" (by decide) (by decide)

/-- Claim C10: when the rootlist fetch succeeds but its body lacks an items
field, `getPlaylistFolderMap` returns the empty map without raising and
without terminating the process, and every playlist then falls back to the
root path — the lookup default yields the empty folder path, so the target
directory is the bare Playlists directory. -/
theorem rootlist_without_items_degrades (uri : String) :
    getPlaylistFolderMap (Except.ok none) = ResolverOutcome.ok [] ∧
    lookupFolderPath [] uri = "" ∧
    playlistTargetDir [] uri = "Playlists" :=
  ⟨rfl, rfl, rfl⟩
